import Mathlib

/-!
Shallow embedding of `src/capture.c` (geoffrey-vl/v4l-capture), a single-file
V4L2 still-frame capture program, together with theorems settling the frozen
claims about its specification.

Modelling conventions.
* Kernel and libc call outcomes are inputs: a `RunEnv` fixes the result of each
  one-shot phase call, and the readiness-wait loop consumes a list of per-wait
  outcomes (`SelIn`).  This makes every run a pure function of its environment.
* Each run produces a trace of `Event`s, one per externally visible call
  (ioctl, mmap, munmap, select, fopen, fwrite, fclose, close), in program
  order.  Ordering and resource-discipline claims are read off the trace.
* `errno` is modelled as a natural number threaded through the loop.  It is 0
  at program start (C11 / POSIX) and is written exactly by failing calls, the
  way the source reads it (`capture.c:163`, `capture.c:202`, `capture.c:210`).
  Successful calls leave it unchanged.
* The uninitialized `enum v4l2_buf_type type` of `stop_capturing`
  (`capture.c:224`) is modelled as an arbitrary input `stackType` standing for
  whatever the stack happened to contain; the trace records the value actually
  handed to the STREAMOFF ioctl.
* `process_image` (`capture.c:141-153`) depends on a `PersistEnv` carrying the
  outcome of `fopen` and `fwrite` and `fclose`; the code reads only the fopen
  outcome, which the definitions below reproduce faithfully.
* The loop input list being exhausted models the C inner loop still waiting;
  such a run has not reached any exit path, hence `main_run` returns `none`.
-/

namespace Capture

/-- errno value EAGAIN, compared against at `capture.c:163`. -/
def EAGAIN : Nat := 11

/-- errno value EINTR, compared against at `capture.c:202`. -/
def EINTR : Nat := 4

/-- The V4L2 buffer type for video capture (`V4L2_BUF_TYPE_VIDEO_CAPTURE`),
the value the stream-off ioctl is supposed to receive. -/
def V4L2_BUF_TYPE_VIDEO_CAPTURE : Nat := 1

/-- `STORE_AFTER_X_FRAMES` from `capture.c:37`: the stabilize-count target. -/
def STORE_AFTER_X_FRAMES : Nat := 5

/-- One externally visible call made by the program, in program order. -/
inductive Event where
  /-- `open("/dev/video0", ...)` at `capture.c:47`. -/
  | openDev
  /-- `ioctl(VIDIOC_QUERYCAP)` at `capture.c:59`. -/
  | queryCap
  /-- `ioctl(VIDIOC_S_FMT)` at `capture.c:83`. -/
  | setFmt
  /-- `ioctl(VIDIOC_REQBUFS)` at `capture.c:97`. -/
  | reqBufs
  /-- `ioctl(VIDIOC_QUERYBUF)` at `capture.c:107`. -/
  | queryBuf
  /-- `mmap(...)` at `capture.c:113`. -/
  | mmapCall
  /-- `ioctl(VIDIOC_QBUF)` at `capture.c:128` (initial enqueue). -/
  | qbufInit
  /-- `ioctl(VIDIOC_STREAMON)` at `capture.c:134`. -/
  | streamOn
  /-- `select(...)` at `capture.c:199` (one readiness wait). -/
  | selectCall
  /-- `ioctl(VIDIOC_DQBUF)` at `capture.c:162` succeeding, with `bytesused`. -/
  | dqbufOk (bytesused : Nat)
  /-- `ioctl(VIDIOC_DQBUF)` at `capture.c:162` failing with errno `e`. -/
  | dqbufErr (e : Nat)
  /-- `ioctl(VIDIOC_QBUF)` at `capture.c:176` (re-enqueue attempt). -/
  | requeue
  /-- `fopen("frame.jpg", "wb")` at `capture.c:144`; `ok` is its outcome. -/
  | fopenW (ok : Bool)
  /-- `fwrite(data, size, 1, file)` at `capture.c:149`: one object of `size`
  bytes attempted, `objects` (0 or 1) reported written. -/
  | fwriteB (size objects : Nat)
  /-- `fclose(file)` at `capture.c:150`. -/
  | fcloseCall
  /-- `ioctl(VIDIOC_STREAMOFF)` at `capture.c:225`, with the buffer-type value
  `t` actually passed. -/
  | streamOff (t : Nat)
  /-- `munmap(...)` at `capture.c:235`. -/
  | munmapCall
  /-- `close(_fd)` at `capture.c:246`. -/
  | closeCall
  deriving DecidableEq, Repr

/-- Outcome of one kernel or libc call that the program checks: success, or
failure with the errno the call left behind. -/
inductive R where
  | ok
  | err (e : Nat)
  deriving DecidableEq, Repr

/-- Outcomes of the three stdio calls inside `process_image`
(`capture.c:144-150`).  The code inspects only `fopenOk`; `objectsWritten`
(the `fwrite` return, 0 or 1 objects) is merely logged, and the `fclose`
result is discarded outright, which `fcloseOk` being unread reproduces. -/
structure PersistEnv where
  fopenOk : Bool
  objectsWritten : Nat
  fcloseOk : Bool
  deriving DecidableEq, Repr

/-- Outcome of the re-enqueue ioctl at `capture.c:176`. -/
inductive QbufRes where
  | ok
  | err (e : Nat)
  deriving DecidableEq, Repr

/-- Outcome of one dequeue attempt (`capture.c:162`): failure with errno `e`
(EAGAIN meaning would-block), or a frame with its `bytesused`, bundled with
the outcomes of the calls that a successful dequeue may go on to make. -/
inductive DqRes where
  | err (e : Nat)
  | frame (bytesused : Nat) (qb : QbufRes) (pe : PersistEnv)
  deriving DecidableEq, Repr

/-- Outcome of one `select` call at `capture.c:199`: failure with errno `e`,
timeout (return 0, errno untouched), or readability, bundled with the outcome
of the dequeue attempted on wakeup. -/
inductive SelIn where
  | err (e : Nat)
  | timeout
  | ready (dq : DqRes)
  deriving DecidableEq, Repr

/-- `process_image` from `capture.c:141-153`.  Opens `frame.jpg` with mode
`"wb"` (create or truncate); on open failure returns -1 without writing.
Otherwise performs a single `fwrite` of one `size`-byte object, closes the
file, and returns 0 regardless of how many objects `fwrite` reported written
and regardless of the `fclose` result. -/
def process_image (size : Nat) (pe : PersistEnv) : Int × List Event :=
  if pe.fopenOk then
    (0, [Event.fopenW true, Event.fwriteB size pe.objectsWritten, Event.fcloseCall])
  else
    (-1, [Event.fopenW false])

/-- `read_frame` from `capture.c:155-181`, as a function of the current
`frames_received` counter, the current errno, and the dequeue outcome.
Result: (return value, new counter, new errno, events).  On dequeue failure
with errno EAGAIN it returns 0; on other dequeue failure it returns the errno.
On success it increments the counter; at `STORE_AFTER_X_FRAMES` it calls
`process_image` (discarding its result) and returns 1; otherwise it
re-enqueues, returning the errno if the re-enqueue ioctl fails and 0 if not. -/
def read_frame (frames errno : Nat) (dq : DqRes) : Int × Nat × Nat × List Event :=
  match dq with
  | DqRes.err e =>
      if e = EAGAIN then (0, frames, e, [Event.dqbufErr e])
      else ((e : Int), frames, e, [Event.dqbufErr e])
  | DqRes.frame b qb pe =>
      if frames + 1 = STORE_AFTER_X_FRAMES then
        (1, frames + 1, errno, Event.dqbufOk b :: (process_image b pe).2)
      else
        match qb with
        | QbufRes.ok => (0, frames + 1, errno, [Event.dqbufOk b, Event.requeue])
        | QbufRes.err e => ((e : Int), frames + 1, e, [Event.dqbufOk b, Event.requeue])

/-- The inner `for (;;)` loop of `main_loop` (`capture.c:187-216`), consuming
one `SelIn` per `select` call.  A select failure with errno EINTR resumes the
loop; any other select failure returns that errno; a select timeout executes
`return errno`, i.e. returns whatever errno currently holds.  On readability
it runs `read_frame`; a nonzero `read_frame` result triggers `break`, after
which the function returns 0 (`capture.c:213-217`); a zero result resumes the
loop.  `none` means the supplied outcomes ran out with the loop still
waiting.  Result: (return value, counter, errno, events). -/
def inner_loop (frames errno : Nat) : List SelIn → Option (Int × Nat × Nat × List Event)
  | [] => none
  | SelIn.err e :: rest =>
      if e = EINTR then
        (inner_loop frames e rest).map
          (fun p => (p.1, p.2.1, p.2.2.1, Event.selectCall :: p.2.2.2))
      else some ((e : Int), frames, e, [Event.selectCall])
  | SelIn.timeout :: _rest => some ((errno : Int), frames, errno, [Event.selectCall])
  | SelIn.ready dq :: rest =>
      let rf := read_frame frames errno dq
      if rf.1 ≠ 0 then some (0, rf.2.1, rf.2.2.1, Event.selectCall :: rf.2.2.2)
      else
        (inner_loop rf.2.1 rf.2.2.1 rest).map
          (fun p => (p.1, p.2.1, p.2.2.1, Event.selectCall :: (rf.2.2.2 ++ p.2.2.2)))

/-- The outer bound constant of `main_loop`: `unsigned int count = 70` at
`capture.c:185`. -/
def mainLoopBound : Nat := 70

/-- `main_loop` from `capture.c:183-219`.  The `while (count-- > 0)` guard is
tested with `count = 70`; the loop body consists of the inner `for (;;)` loop
followed by `return 0`, and the inner loop itself only ever exits by
returning or by `break`, so the body returns during the first outer
iteration whenever it terminates at all. -/
def main_loop (frames errno : Nat) (ins : List SelIn) : Option (Int × Nat × Nat × List Event) :=
  if 0 < mainLoopBound then inner_loop frames errno ins else none

/-- `uninit_mmap` from `capture.c:232-241`: one `munmap` call, -1 on failure. -/
def uninit_mmap (ok : Bool) : Int × List Event :=
  if ok then (0, [Event.munmapCall]) else (-1, [Event.munmapCall])

/-- `close_device` from `capture.c:243-251`: one `close` call, -1 on failure. -/
def close_device (ok : Bool) : Int × List Event :=
  if ok then (0, [Event.closeCall]) else (-1, [Event.closeCall])

/-- `stop_capturing` from `capture.c:221-230`.  Declares
`enum v4l2_buf_type type;` without initializing it and hands `&type` to the
STREAMOFF ioctl; `stackType` stands for the indeterminate stack contents, and
the trace records that exact value being passed.  Returns -1 on ioctl
failure. -/
def stop_capturing (stackType : Nat) (ok : Bool) : Int × List Event :=
  (if ok then 0 else -1, [Event.streamOff stackType])

/-- The environment of one run: the outcome of every checked call, the
readiness-wait outcomes, and the indeterminate stack value read by
`stop_capturing`. -/
structure RunEnv where
  /-- outcome of `open` (`capture.c:47`); on `err e`, errno is `e`. -/
  openR : R
  /-- outcome of the QUERYCAP ioctl (`capture.c:59`). -/
  querycapR : R
  /-- QUERYCAP advertises `V4L2_CAP_VIDEO_CAPTURE` (`capture.c:67`). -/
  capVideoCapture : Bool
  /-- QUERYCAP advertises `V4L2_CAP_STREAMING` (`capture.c:71`). -/
  capStreaming : Bool
  /-- outcome of the S_FMT ioctl (`capture.c:83`). -/
  sfmtR : R
  /-- outcome of the REQBUFS ioctl (`capture.c:97`). -/
  reqbufsR : R
  /-- outcome of the QUERYBUF ioctl (`capture.c:107`). -/
  querybufR : R
  /-- outcome of `mmap` (`capture.c:113`). -/
  mmapR : R
  /-- outcome of the initial QBUF ioctl (`capture.c:128`). -/
  qbufR : R
  /-- outcome of the STREAMON ioctl (`capture.c:134`). -/
  streamonR : R
  /-- outcomes of the readiness waits, one per `select` call. -/
  loopIns : List SelIn
  /-- indeterminate stack contents read as the buffer type in
  `stop_capturing` (`capture.c:224`). -/
  stackType : Nat
  /-- outcome of the STREAMOFF ioctl (`capture.c:225`). -/
  streamoffOk : Bool
  /-- outcome of `munmap` (`capture.c:235`). -/
  munmapOk : Bool
  /-- outcome of `close` (`capture.c:246`). -/
  closeOk : Bool
  deriving DecidableEq, Repr

/-- `open_device` from `capture.c:44-53`: returns errno on failure. -/
def open_device (env : RunEnv) : Int × List Event :=
  match env.openR with
  | R.ok => (0, [Event.openDev])
  | R.err e => ((e : Int), [Event.openDev])

/-- `init_device` from `capture.c:55-88`: QUERYCAP (errno on failure), then
the two capability checks (-1 on failure), then S_FMT (errno on failure). -/
def init_device (env : RunEnv) : Int × List Event :=
  match env.querycapR with
  | R.err e => ((e : Int), [Event.queryCap])
  | R.ok =>
    if !env.capVideoCapture then (-1, [Event.queryCap])
    else if !env.capStreaming then (-1, [Event.queryCap])
    else match env.sfmtR with
      | R.err e => ((e : Int), [Event.queryCap, Event.setFmt])
      | R.ok => (0, [Event.queryCap, Event.setFmt])

/-- `init_mmap` from `capture.c:90-119`: REQBUFS, QUERYBUF, `mmap`, each
returning errno on failure. -/
def init_mmap (env : RunEnv) : Int × List Event :=
  match env.reqbufsR with
  | R.err e => ((e : Int), [Event.reqBufs])
  | R.ok =>
    match env.querybufR with
    | R.err e => ((e : Int), [Event.reqBufs, Event.queryBuf])
    | R.ok =>
      match env.mmapR with
      | R.err e => ((e : Int), [Event.reqBufs, Event.queryBuf, Event.mmapCall])
      | R.ok => (0, [Event.reqBufs, Event.queryBuf, Event.mmapCall])

/-- `start_capturing` from `capture.c:121-139`: the initial QBUF then
STREAMON, each returning errno on failure. -/
def start_capturing (env : RunEnv) : Int × List Event :=
  match env.qbufR with
  | R.err e => ((e : Int), [Event.qbufInit])
  | R.ok =>
    match env.streamonR with
    | R.err e => ((e : Int), [Event.qbufInit, Event.streamOn])
    | R.ok => (0, [Event.qbufInit, Event.streamOn])

/-- `main` from `capture.c:253-292`.  Phases run in order; a failing phase
aborts with exit code -1 after the hand-coded rollback of that branch
(`close` after `init_device`/`init_mmap` failure; `munmap` then `close` after
`start_capturing`/`main_loop`/`stop_capturing` failure; rollback results are
discarded).  `frames_received` starts at 0 (`capture.c:42`) and errno starts
at 0 at program start.  Result: exit code and full event trace, or `none`
when the loop inputs ran out with the loop still waiting. -/
def main_run (env : RunEnv) : Option (Int × List Event) :=
  let o := open_device env
  if o.1 ≠ 0 then some (-1, o.2)
  else
    let d := init_device env
    if d.1 ≠ 0 then some (-1, o.2 ++ d.2 ++ (close_device env.closeOk).2)
    else
      let m := init_mmap env
      if m.1 ≠ 0 then some (-1, o.2 ++ d.2 ++ m.2 ++ (close_device env.closeOk).2)
      else
        let sc := start_capturing env
        if sc.1 ≠ 0 then
          some (-1, o.2 ++ d.2 ++ m.2 ++ sc.2 ++ (uninit_mmap env.munmapOk).2
                      ++ (close_device env.closeOk).2)
        else
          match main_loop 0 0 env.loopIns with
          | none => none
          | some (r, _f, _er, t5) =>
            let pre := o.2 ++ d.2 ++ m.2 ++ sc.2 ++ t5
            if r ≠ 0 then
              some (-1, pre ++ (uninit_mmap env.munmapOk).2 ++ (close_device env.closeOk).2)
            else
              let so := stop_capturing env.stackType env.streamoffOk
              if so.1 ≠ 0 then
                some (-1, pre ++ so.2 ++ (uninit_mmap env.munmapOk).2
                            ++ (close_device env.closeOk).2)
              else
                let um := uninit_mmap env.munmapOk
                if um.1 ≠ 0 then
                  some (-1, pre ++ so.2 ++ um.2 ++ (close_device env.closeOk).2)
                else
                  let cd := close_device env.closeOk
                  if cd.1 ≠ 0 then some (-1, pre ++ so.2 ++ um.2 ++ cd.2)
                  else some (0, pre ++ so.2 ++ um.2 ++ cd.2)

/-! ### Trace predicates and helper lemmas -/

/-- Is this event the `close(_fd)` call? -/
def isClose : Event → Bool
  | Event.closeCall => true
  | _ => false

/-- Is this event the `munmap` call? -/
def isMunmap : Event → Bool
  | Event.munmapCall => true
  | _ => false

/-- Is this event a STREAMOFF ioctl call? -/
def isStreamOff : Event → Bool
  | Event.streamOff _ => true
  | _ => false

/-- Is this event the STREAMON ioctl call? -/
def isStreamOn : Event → Bool
  | Event.streamOn => true
  | _ => false

/-- Is this event a `select` call (one readiness wait)? -/
def isSelect : Event → Bool
  | Event.selectCall => true
  | _ => false

/-- Is this event a successful dequeue? -/
def isDqOk : Event → Bool
  | Event.dqbufOk _ => true
  | _ => false

/-- Is this event the `fopen` of the output file? -/
def isFopen : Event → Bool
  | Event.fopenW _ => true
  | _ => false

/-- Is this event the `fwrite` to the output file? -/
def isFwrite : Event → Bool
  | Event.fwriteB _ _ => true
  | _ => false

/-- Events that the readiness-wait loop itself can emit. -/
def isLoopEvent : Event → Bool
  | Event.selectCall => true
  | Event.dqbufOk _ => true
  | Event.dqbufErr _ => true
  | Event.requeue => true
  | Event.fopenW _ => true
  | Event.fwriteB _ _ => true
  | Event.fcloseCall => true
  | _ => false

/-- All phases up to and including STREAMON succeeded, i.e. the run reaches
`main_loop` with the stream on. -/
def streamOnSucceeded (env : RunEnv) : Prop :=
  env.openR = R.ok ∧ env.querycapR = R.ok ∧ env.capVideoCapture = true ∧
  env.capStreaming = true ∧ env.sfmtR = R.ok ∧ env.reqbufsR = R.ok ∧
  env.querybufR = R.ok ∧ env.mmapR = R.ok ∧ env.qbufR = R.ok ∧
  env.streamonR = R.ok

instance (env : RunEnv) : Decidable (streamOnSucceeded env) := by
  unfold streamOnSucceeded; infer_instance

/-- One readiness wait delivering a frame of 1000 bytes whose re-enqueue and
persistence succeed. -/
def goodFrame : SelIn := SelIn.ready (DqRes.frame 1000 QbufRes.ok ⟨true, 1, true⟩)

/-- A run in which every call succeeds and five frames arrive. -/
def envHappy : RunEnv :=
  { openR := R.ok, querycapR := R.ok, capVideoCapture := true, capStreaming := true,
    sfmtR := R.ok, reqbufsR := R.ok, querybufR := R.ok, mmapR := R.ok,
    qbufR := R.ok, streamonR := R.ok,
    loopIns := List.replicate 5 goodFrame,
    stackType := 0, streamoffOk := true, munmapOk := true, closeOk := true }

/-- The happy run with `munmap` failing during teardown. -/
def envMunmapFail : RunEnv := { envHappy with munmapOk := false }

/-- The happy run except that the first readiness wait fails with errno 5. -/
def envSelFail : RunEnv := { envHappy with loopIns := [SelIn.err 5] }

/-- The happy run except that the first readiness wait times out. -/
def envTimeout : RunEnv := { envHappy with loopIns := [SelIn.timeout] }

/-- The happy run except that the dequeue fails with errno 5 (not EAGAIN). -/
def envDqFail : RunEnv := { envHappy with loopIns := [SelIn.ready (DqRes.err 5)] }

/-- The happy run except that the fifth frame's `fopen` fails. -/
def envPersistFail : RunEnv := { envHappy with
  loopIns := List.replicate 4 goodFrame
             ++ [SelIn.ready (DqRes.frame 1000 QbufRes.ok ⟨false, 0, true⟩)] }

/-- The event trace of `envHappy` (also of `envMunmapFail`, whose only
difference is the `munmap` return value, not the calls made). -/
def trHappy : List Event :=
  [Event.openDev, Event.queryCap, Event.setFmt, Event.reqBufs, Event.queryBuf,
   Event.mmapCall, Event.qbufInit, Event.streamOn,
   Event.selectCall, Event.dqbufOk 1000, Event.requeue,
   Event.selectCall, Event.dqbufOk 1000, Event.requeue,
   Event.selectCall, Event.dqbufOk 1000, Event.requeue,
   Event.selectCall, Event.dqbufOk 1000, Event.requeue,
   Event.selectCall, Event.dqbufOk 1000,
   Event.fopenW true, Event.fwriteB 1000 1, Event.fcloseCall,
   Event.streamOff 0, Event.munmapCall, Event.closeCall]

/-- The event trace of `envSelFail`. -/
def trSelFail : List Event :=
  [Event.openDev, Event.queryCap, Event.setFmt, Event.reqBufs, Event.queryBuf,
   Event.mmapCall, Event.qbufInit, Event.streamOn,
   Event.selectCall, Event.munmapCall, Event.closeCall]

/-- The event trace of `envTimeout`. -/
def trTimeout : List Event :=
  [Event.openDev, Event.queryCap, Event.setFmt, Event.reqBufs, Event.queryBuf,
   Event.mmapCall, Event.qbufInit, Event.streamOn,
   Event.selectCall, Event.streamOff 0, Event.munmapCall, Event.closeCall]

/-- The event trace of `envDqFail`. -/
def trDqFail : List Event :=
  [Event.openDev, Event.queryCap, Event.setFmt, Event.reqBufs, Event.queryBuf,
   Event.mmapCall, Event.qbufInit, Event.streamOn,
   Event.selectCall, Event.dqbufErr 5, Event.streamOff 0, Event.munmapCall,
   Event.closeCall]

/-- The event trace of `envPersistFail`. -/
def trPersistFail : List Event :=
  [Event.openDev, Event.queryCap, Event.setFmt, Event.reqBufs, Event.queryBuf,
   Event.mmapCall, Event.qbufInit, Event.streamOn,
   Event.selectCall, Event.dqbufOk 1000, Event.requeue,
   Event.selectCall, Event.dqbufOk 1000, Event.requeue,
   Event.selectCall, Event.dqbufOk 1000, Event.requeue,
   Event.selectCall, Event.dqbufOk 1000, Event.requeue,
   Event.selectCall, Event.dqbufOk 1000,
   Event.fopenW false,
   Event.streamOff 0, Event.munmapCall, Event.closeCall]

/-- Loop inputs: `n` would-block wakeups followed by a dequeue failure with
errno 5. -/
def stallInputs (n : Nat) : List SelIn :=
  List.replicate n (SelIn.ready (DqRes.err EAGAIN)) ++ [SelIn.ready (DqRes.err 5)]

/-- The loop trace produced by `stallInputs n`. -/
def stallTrace (n : Nat) : List Event :=
  (List.replicate n [Event.selectCall, Event.dqbufErr EAGAIN]).flatten
    ++ [Event.selectCall, Event.dqbufErr 5]

/-- A count of `p`-events is zero on a block of loop events when `p` rejects
every loop event. -/
theorem countP_eq_zero_of_loopish {p : Event → Bool}
    (hp : ∀ e, isLoopEvent e = true → p e = false) {evs : List Event}
    (h : ∀ e ∈ evs, isLoopEvent e = true) : evs.countP p = 0 := by
  rw [List.countP_eq_zero]
  intro a ha
  simp [hp a (h a ha)]

/-! ### Loop invariants -/

/-- Per-step facts about `read_frame`: its trace is made of loop events; the
counter advances exactly by the number of successful-dequeue events it emits;
it emits an `fopen` only when the counter reaches the stabilize target, in
which case it returns 1; and it emits no more writes than opens. -/
theorem read_frame_step (frames errno : Nat) (dq : DqRes) :
    (∀ e ∈ (read_frame frames errno dq).2.2.2, isLoopEvent e = true) ∧
    (read_frame frames errno dq).2.1
      = frames + ((read_frame frames errno dq).2.2.2.countP isDqOk) ∧
    (1 ≤ (read_frame frames errno dq).2.2.2.countP isFopen →
      (read_frame frames errno dq).2.1 = STORE_AFTER_X_FRAMES ∧
      (read_frame frames errno dq).1 = 1) ∧
    (read_frame frames errno dq).2.2.2.countP isFwrite
      ≤ (read_frame frames errno dq).2.2.2.countP isFopen := by
  cases dq with
  | err e =>
      by_cases h : e = EAGAIN <;>
        simp [read_frame, h, isLoopEvent, isDqOk, isFopen, isFwrite]
  | frame b qb pe =>
      by_cases h : frames + 1 = STORE_AFTER_X_FRAMES
      · cases hp : pe.fopenOk <;>
          simp [read_frame, h, process_image, hp, isLoopEvent, isDqOk, isFopen, isFwrite]
      · cases qb <;>
          simp [read_frame, h, isLoopEvent, isDqOk, isFopen, isFwrite]

theorem inner_loop_inv :
    ∀ (ins : List SelIn) (frames errno : Nat) (r : Int) (f er : Nat) (evs : List Event),
      inner_loop frames errno ins = some (r, f, er, evs) →
      (∀ e ∈ evs, isLoopEvent e = true) ∧
      f = frames + evs.countP isDqOk ∧
      (1 ≤ evs.countP isFopen → f = STORE_AFTER_X_FRAMES) ∧
      evs.countP isFwrite ≤ evs.countP isFopen := by
  intro ins
  induction ins with
  | nil => intro frames errno r f er evs h; simp [inner_loop] at h
  | cons s rest ih =>
    intro frames errno r f er evs h
    cases s with
    | err e =>
        by_cases he : e = EINTR
        · rw [inner_loop, if_pos he, Option.map_eq_some'] at h
          obtain ⟨⟨r1, f1, er1, evs1⟩, hrec, hg⟩ := h
          simp only [Prod.mk.injEq] at hg
          obtain ⟨-, hf, -, hevs⟩ := hg
          subst hf; subst hevs
          obtain ⟨ihe, ihf, ihfo, ihw⟩ := ih frames e r1 f1 er1 evs1 hrec
          refine ⟨?_, ?_, ?_, ?_⟩
          · intro x hx
            rcases List.mem_cons.mp hx with rfl | hx'
            · rfl
            · exact ihe x hx'
          · simpa [List.countP_cons, isDqOk] using ihf
          · intro hfo
            exact ihfo (by simpa [List.countP_cons, isFopen] using hfo)
          · simpa [List.countP_cons, isFwrite, isFopen] using ihw
        · rw [inner_loop, if_neg he] at h
          simp only [Option.some.injEq, Prod.mk.injEq] at h
          obtain ⟨-, hf, -, hevs⟩ := h
          subst hf; subst hevs
          simp [isLoopEvent, isDqOk, isFopen, isFwrite]
    | timeout =>
        rw [inner_loop] at h
        simp only [Option.some.injEq, Prod.mk.injEq] at h
        obtain ⟨-, hf, -, hevs⟩ := h
        subst hf; subst hevs
        simp [isLoopEvent, isDqOk, isFopen, isFwrite]
    | ready dq =>
        obtain ⟨se, sf, sfo, sw⟩ := read_frame_step frames errno dq
        simp only [inner_loop] at h
        by_cases hr : (read_frame frames errno dq).1 = 0
        · rw [if_neg (fun hn => hn hr), Option.map_eq_some'] at h
          obtain ⟨⟨r1, f1, er1, evs1⟩, hrec, hg⟩ := h
          simp only [Prod.mk.injEq] at hg
          obtain ⟨-, hf, -, hevs⟩ := hg
          subst hf; subst hevs
          obtain ⟨ihe, ihf, ihfo, ihw⟩ := ih _ _ r1 f1 er1 evs1 hrec
          refine ⟨?_, ?_, ?_, ?_⟩
          · intro x hx
            rcases List.mem_cons.mp hx with rfl | hx'
            · rfl
            · rcases List.mem_append.mp hx' with hx2 | hx2
              · exact se x hx2
              · exact ihe x hx2
          · rw [ihf, sf]
            simp [List.countP_cons, List.countP_append, isDqOk, Nat.add_assoc]
          · intro hfo
            have hfo' : 1 ≤ (read_frame frames errno dq).2.2.2.countP isFopen
                + evs1.countP isFopen := by
              simpa [List.countP_cons, List.countP_append, isFopen] using hfo
            rcases Nat.eq_zero_or_pos
                ((read_frame frames errno dq).2.2.2.countP isFopen) with hz | hpos
            · exact ihfo (by omega)
            · have h1 := (sfo hpos).2
              rw [hr] at h1
              exact absurd h1 (by decide)
          · simp only [List.countP_cons, List.countP_append]
            simp [isFwrite, isFopen]
            exact Nat.add_le_add sw ihw
        · rw [if_pos hr] at h
          simp only [Option.some.injEq, Prod.mk.injEq] at h
          obtain ⟨-, hf, -, hevs⟩ := h
          subst hf; subst hevs
          refine ⟨?_, ?_, ?_, ?_⟩
          · intro x hx
            rcases List.mem_cons.mp hx with rfl | hx'
            · rfl
            · exact se x hx'
          · simpa [List.countP_cons, isDqOk] using sf
          · intro hfo
            exact (sfo (by simpa [List.countP_cons, isFopen] using hfo)).1
          · simpa [List.countP_cons, isFwrite, isFopen] using sw

/-! ### Phase traces and counting helpers -/

/-- A count is zero on a block whose members all falsify the predicate. -/
theorem countP_eq_zero_of_mem {p : Event → Bool} {l : List Event}
    (h : ∀ e ∈ l, p e = false) : l.countP p = 0 := by
  rw [List.countP_eq_zero]; intro a ha; simp [h a ha]

/-- The outer `while (count-- > 0)` guard holds at its first test, and the
body returns whenever it terminates, so `main_loop` behaves as one run of the
inner loop. -/
theorem main_loop_eq_inner (frames errno : Nat) (ins : List SelIn) :
    main_loop frames errno ins = inner_loop frames errno ins := by
  simp [main_loop, mainLoopBound]

/-- The inner loop's trace counts zero for any predicate rejecting loop
events. -/
theorem loop_countP_zero {p : Event → Bool}
    (hp : ∀ e, isLoopEvent e = true → p e = false)
    {frames errno : Nat} {r : Int} {f er : Nat} {ins : List SelIn} {evs : List Event}
    (h : inner_loop frames errno ins = some (r, f, er, evs)) : evs.countP p = 0 :=
  countP_eq_zero_of_loopish hp ((inner_loop_inv ins frames errno r f er evs h).1)

theorem isClose_loop : ∀ e, isLoopEvent e = true → isClose e = false := by
  intro e h; cases e <;> simp_all [isLoopEvent, isClose]

theorem isMunmap_loop : ∀ e, isLoopEvent e = true → isMunmap e = false := by
  intro e h; cases e <;> simp_all [isLoopEvent, isMunmap]

theorem isStreamOff_loop : ∀ e, isLoopEvent e = true → isStreamOff e = false := by
  intro e h; cases e <;> simp_all [isLoopEvent, isStreamOff]

theorem uninit_mmap_trace (ok : Bool) : (uninit_mmap ok).2 = [Event.munmapCall] := by
  cases ok <;> rfl

theorem close_device_trace (ok : Bool) : (close_device ok).2 = [Event.closeCall] := by
  cases ok <;> rfl

theorem stop_capturing_trace (t : Nat) (ok : Bool) :
    (stop_capturing t ok).2 = [Event.streamOff t] := rfl

theorem open_device_trace (env : RunEnv) : (open_device env).2 = [Event.openDev] := by
  cases h : env.openR <;> simp [open_device, h]

theorem init_device_mem (env : RunEnv) :
    ∀ e ∈ (init_device env).2, e = Event.queryCap ∨ e = Event.setFmt := by
  rcases h : env.querycapR with _ | e1
  · by_cases h2 : env.capVideoCapture <;> by_cases h3 : env.capStreaming <;>
      rcases h4 : env.sfmtR with _ | e2 <;>
      simp [init_device, h, h2, h3, h4]
  · simp [init_device, h]

theorem init_mmap_mem (env : RunEnv) :
    ∀ e ∈ (init_mmap env).2,
      e = Event.reqBufs ∨ e = Event.queryBuf ∨ e = Event.mmapCall := by
  rcases h : env.reqbufsR with _ | e1 <;>
    [rcases h2 : env.querybufR with _ | e2 <;>
      [rcases h3 : env.mmapR with _ | e3 <;> simp [init_mmap, h, h2, h3];
       simp [init_mmap, h, h2]];
     simp [init_mmap, h]]

theorem start_capturing_mem (env : RunEnv) :
    ∀ e ∈ (start_capturing env).2, e = Event.qbufInit ∨ e = Event.streamOn := by
  rcases h : env.qbufR with _ | e1
  · rcases h2 : env.streamonR with _ | e2 <;> simp [start_capturing, h, h2]
  · simp [start_capturing, h]

/-- Phase traces count zero for any predicate rejecting the phase events. -/
theorem phase_counts (env : RunEnv) (p : Event → Bool)
    (hop : p Event.openDev = false) (hqc : p Event.queryCap = false)
    (hsf : p Event.setFmt = false) (hrb : p Event.reqBufs = false)
    (hqb : p Event.queryBuf = false) (hmm : p Event.mmapCall = false)
    (hqi : p Event.qbufInit = false) (hso : p Event.streamOn = false) :
    (open_device env).2.countP p = 0 ∧ (init_device env).2.countP p = 0 ∧
    (init_mmap env).2.countP p = 0 ∧ (start_capturing env).2.countP p = 0 := by
  refine ⟨?_, ?_, ?_, ?_⟩
  · rw [open_device_trace]; simp [List.countP_cons, hop]
  · apply countP_eq_zero_of_mem
    intro e he
    rcases init_device_mem env e he with rfl | rfl
    exacts [hqc, hsf]
  · apply countP_eq_zero_of_mem
    intro e he
    rcases init_mmap_mem env e he with rfl | rfl | rfl
    exacts [hrb, hqb, hmm]
  · apply countP_eq_zero_of_mem
    intro e he
    rcases start_capturing_mem env e he with rfl | rfl
    exacts [hqi, hso]

/-- A trace ending in the close call decomposes as prefix plus `[closeCall]`. -/
theorem close_tail {tr X : List Event} {ok : Bool}
    (h : tr = X ++ (close_device ok).2) :
    ∃ pre, tr = pre ++ [Event.closeCall] ∧ pre.countP isClose = X.countP isClose :=
  ⟨X, by rw [h, close_device_trace], rfl⟩

/-- A trace ending in unmap-then-close decomposes as prefix plus
`[munmapCall, closeCall]`. -/
theorem munmap_close_tail {tr X : List Event} {ok1 ok2 : Bool}
    (h : tr = X ++ (uninit_mmap ok1).2 ++ (close_device ok2).2) :
    ∃ pre, tr = pre ++ [Event.munmapCall, Event.closeCall] ∧
      pre.countP isMunmap = X.countP isMunmap ∧
      pre.countP isClose = X.countP isClose := by
  refine ⟨X, ?_, rfl, rfl⟩
  rw [h, uninit_mmap_trace, close_device_trace, List.append_assoc]
  rfl

/-- A trace ending in stream-off, unmap, close decomposes as prefix plus
those three calls in order. -/
theorem so_munmap_close_tail {tr X : List Event} {t : Nat} {ok0 ok1 ok2 : Bool}
    (h : tr = X ++ (stop_capturing t ok0).2 ++ (uninit_mmap ok1).2
            ++ (close_device ok2).2) :
    ∃ pre, tr = pre ++ [Event.streamOff t, Event.munmapCall, Event.closeCall] ∧
      pre.countP isStreamOff = X.countP isStreamOff ∧
      pre.countP isMunmap = X.countP isMunmap ∧
      pre.countP isClose = X.countP isClose := by
  refine ⟨X, ?_, rfl, rfl, rfl⟩
  rw [h, stop_capturing_trace, uninit_mmap_trace, close_device_trace]
  simp [List.append_assoc]

/-- Either the run ended before the loop started (and its trace contains no
file-open, no successful dequeue and no file-write events), or the loop ran
and the run trace has exactly the loop trace's counts of those events. -/
theorem main_run_file_counts (env : RunEnv) (code : Int) (tr : List Event)
    (h : main_run env = some (code, tr)) :
    (tr.countP isFopen = 0 ∧ tr.countP isDqOk = 0 ∧ tr.countP isFwrite = 0) ∨
    ∃ r f er t5, inner_loop 0 0 env.loopIns = some (r, f, er, t5) ∧
      tr.countP isFopen = t5.countP isFopen ∧
      tr.countP isDqOk = t5.countP isDqOk ∧
      tr.countP isFwrite = t5.countP isFwrite := by
  obtain ⟨a1, a2, a3, a4⟩ := phase_counts env isFopen rfl rfl rfl rfl rfl rfl rfl rfl
  obtain ⟨b1, b2, b3, b4⟩ := phase_counts env isDqOk rfl rfl rfl rfl rfl rfl rfl rfl
  obtain ⟨d1, d2, d3, d4⟩ := phase_counts env isFwrite rfl rfl rfl rfl rfl rfl rfl rfl
  have u1 : ∀ ok, (uninit_mmap ok).2.countP isFopen = 0 := by
    intro ok; rw [uninit_mmap_trace]; rfl
  have u2 : ∀ ok, (uninit_mmap ok).2.countP isDqOk = 0 := by
    intro ok; rw [uninit_mmap_trace]; rfl
  have u3 : ∀ ok, (uninit_mmap ok).2.countP isFwrite = 0 := by
    intro ok; rw [uninit_mmap_trace]; rfl
  have v1 : ∀ ok, (close_device ok).2.countP isFopen = 0 := by
    intro ok; rw [close_device_trace]; rfl
  have v2 : ∀ ok, (close_device ok).2.countP isDqOk = 0 := by
    intro ok; rw [close_device_trace]; rfl
  have v3 : ∀ ok, (close_device ok).2.countP isFwrite = 0 := by
    intro ok; rw [close_device_trace]; rfl
  have w1 : ∀ t ok, (stop_capturing t ok).2.countP isFopen = 0 := by
    intro t ok; rw [stop_capturing_trace]; rfl
  have w2 : ∀ t ok, (stop_capturing t ok).2.countP isDqOk = 0 := by
    intro t ok; rw [stop_capturing_trace]; rfl
  have w3 : ∀ t ok, (stop_capturing t ok).2.countP isFwrite = 0 := by
    intro t ok; rw [stop_capturing_trace]; rfl
  simp only [main_run] at h
  split at h
  · simp only [Option.some.injEq, Prod.mk.injEq] at h
    obtain ⟨-, htr⟩ := h; subst htr
    exact Or.inl ⟨a1, b1, d1⟩
  · split at h
    · simp only [Option.some.injEq, Prod.mk.injEq] at h
      obtain ⟨-, htr⟩ := h; subst htr
      refine Or.inl ⟨?_, ?_, ?_⟩ <;>
        simp [List.countP_append, a1, a2, b1, b2, d1, d2, v1, v2, v3]
    · split at h
      · simp only [Option.some.injEq, Prod.mk.injEq] at h
        obtain ⟨-, htr⟩ := h; subst htr
        refine Or.inl ⟨?_, ?_, ?_⟩ <;>
          simp [List.countP_append, a1, a2, a3, b1, b2, b3, d1, d2, d3, v1, v2, v3]
      · split at h
        · simp only [Option.some.injEq, Prod.mk.injEq] at h
          obtain ⟨-, htr⟩ := h; subst htr
          refine Or.inl ⟨?_, ?_, ?_⟩ <;>
            simp [List.countP_append, a1, a2, a3, a4, b1, b2, b3, b4, d1, d2, d3, d4,
              u1, u2, u3, v1, v2, v3]
        · split at h
          · exact absurd h (by simp)
          · rename_i r f er t5 heq
            rw [main_loop_eq_inner] at heq
            refine Or.inr ⟨r, f, er, t5, heq, ?_⟩
            split at h
            · simp only [Option.some.injEq, Prod.mk.injEq] at h
              obtain ⟨-, htr⟩ := h; subst htr
              refine ⟨?_, ?_, ?_⟩ <;>
                simp [List.countP_append, a1, a2, a3, a4, b1, b2, b3, b4, d1, d2, d3, d4,
                  u1, u2, u3, v1, v2, v3]
            · split at h
              · simp only [Option.some.injEq, Prod.mk.injEq] at h
                obtain ⟨-, htr⟩ := h; subst htr
                refine ⟨?_, ?_, ?_⟩ <;>
                  simp [List.countP_append, a1, a2, a3, a4, b1, b2, b3, b4, d1, d2, d3, d4,
                    u1, u2, u3, v1, v2, v3, w1, w2, w3]
              · split at h
                · simp only [Option.some.injEq, Prod.mk.injEq] at h
                  obtain ⟨-, htr⟩ := h; subst htr
                  refine ⟨?_, ?_, ?_⟩ <;>
                    simp [List.countP_append, a1, a2, a3, a4, b1, b2, b3, b4, d1, d2, d3, d4,
                      u1, u2, u3, v1, v2, v3, w1, w2, w3]
                · split at h
                  · simp only [Option.some.injEq, Prod.mk.injEq] at h
                    obtain ⟨-, htr⟩ := h; subst htr
                    refine ⟨?_, ?_, ?_⟩ <;>
                      simp [List.countP_append, a1, a2, a3, a4, b1, b2, b3, b4, d1, d2, d3, d4,
                        u1, u2, u3, v1, v2, v3, w1, w2, w3]
                  · simp only [Option.some.injEq, Prod.mk.injEq] at h
                    obtain ⟨-, htr⟩ := h; subst htr
                    refine ⟨?_, ?_, ?_⟩ <;>
                      simp [List.countP_append, a1, a2, a3, a4, b1, b2, b3, b4, d1, d2, d3, d4,
                        u1, u2, u3, v1, v2, v3, w1, w2, w3]



/-- Claim C2 (amended): `persist` (`process_image`) opens the output path
with create-or-truncate, attempts a single `fwrite` of exactly `length`
bytes, and closes the file before returning; but only a failure to open the
file yields an error (-1): a short write or a close failure is not detected
and yields success, and `read_frame` discards the persist result altogether,
so no persistence failure reaches the top level. -/
theorem c2_persist_behavior (size frames errno b : Nat) (pe : PersistEnv)
    (qb : QbufRes) :
    (pe.fopenOk = true → process_image size pe =
      (0, [Event.fopenW true, Event.fwriteB size pe.objectsWritten,
           Event.fcloseCall])) ∧
    (pe.fopenOk = false → process_image size pe = (-1, [Event.fopenW false])) ∧
    (frames + 1 = STORE_AFTER_X_FRAMES →
      (read_frame frames errno (DqRes.frame b qb pe)).1 = 1) := by
  refine ⟨?_, ?_, ?_⟩
  · intro h; simp [process_image, h]
  · intro h; simp [process_image, h]
  · intro h; simp [read_frame, h]

theorem c2_persist_behavior_witness :
    process_image 100 ⟨true, 0, false⟩ =
      (0, [Event.fopenW true, Event.fwriteB 100 0, Event.fcloseCall]) ∧
    process_image 100 ⟨false, 0, true⟩ = (-1, [Event.fopenW false]) ∧
    (read_frame 4 0 (DqRes.frame 1000 QbufRes.ok ⟨false, 0, true⟩)).1 = 1 :=
  ⟨(c2_persist_behavior 100 4 0 1000 ⟨true, 0, false⟩ QbufRes.ok).1 rfl,
   (c2_persist_behavior 100 4 0 1000 ⟨false, 0, true⟩ QbufRes.ok).2.1 rfl,
   (c2_persist_behavior 100 4 0 1000 ⟨false, 0, true⟩ QbufRes.ok).2.2 rfl⟩

/-- Claim C2 counterexample: a short write (`fwrite` reporting 0 objects)
with a failing `fclose` still returns 0 from `process_image`; an `fopen`
failure still makes `read_frame` return 1 (success); and a whole run whose
fifth-frame persistence fails exits with code 0. -/
theorem c2_counterexample :
    process_image 100 ⟨true, 0, false⟩ =
      (0, [Event.fopenW true, Event.fwriteB 100 0, Event.fcloseCall]) ∧
    read_frame 4 0 (DqRes.frame 1000 QbufRes.ok ⟨false, 0, true⟩) =
      (1, 5, 0, [Event.dqbufOk 1000, Event.fopenW false]) ∧
    main_run envPersistFail = some (0, trPersistFail) := by decide

/-- Claim C4 (code bug): after a readiness-wait timeout the code executes
`return errno` (`capture.c:210`), but `select` does not set errno on a
timeout, so the returned value is whatever errno already held.  On a fresh
timeout errno is still 0: `main_loop` returns 0, the run proceeds through
stream-off, unmap and close, and exits 0 with no frame persisted — instead
of failing with `CaptureTimeout`.  Only a timeout preceded by a failing call
(e.g. a would-block dequeue leaving errno = EAGAIN) returns nonzero. -/
theorem c4_timeout_returns_stale_errno :
    inner_loop 0 0 [SelIn.timeout] = some (0, 0, 0, [Event.selectCall]) ∧
    inner_loop 0 0 [SelIn.ready (DqRes.err EAGAIN), SelIn.timeout] =
      some (((EAGAIN : Nat) : Int), 0, EAGAIN,
        [Event.selectCall, Event.dqbufErr EAGAIN, Event.selectCall]) ∧
    main_run envTimeout = some (0, trTimeout) ∧
    trTimeout.countP isFopen = 0 := by decide

/-- Claim C8: a would-block dequeue (EAGAIN) leaves the frame counter
unchanged, emits no re-enqueue event, and the loop resumes the readiness
wait on the remaining inputs instead of failing. -/
theorem c8_would_block_preserves_state (frames errno : Nat) (rest : List SelIn) :
    read_frame frames errno (DqRes.err EAGAIN) =
      (0, frames, EAGAIN, [Event.dqbufErr EAGAIN]) ∧
    inner_loop frames errno (SelIn.ready (DqRes.err EAGAIN) :: rest) =
      (inner_loop frames EAGAIN rest).map
        (fun p => (p.1, p.2.1, p.2.2.1,
          Event.selectCall :: Event.dqbufErr EAGAIN :: p.2.2.2)) := by
  constructor
  · simp [read_frame]
  · rcases h : inner_loop frames EAGAIN rest with _ | ⟨r1, f1, er1, evs1⟩ <;>
      simp [inner_loop, read_frame, h]

/-- Claim C9 (code bug): `stop_capturing` hands the STREAMOFF ioctl exactly
the indeterminate stack contents of its uninitialized `type` variable
(`capture.c:224`), never setting it to `V4L2_BUF_TYPE_VIDEO_CAPTURE` (= 1):
for stack contents 0 (or 3), the ioctl receives 0 (or 3), and in a full run
with stack contents 0 no `streamOff` event carries the video-capture type. -/
theorem c9_streamoff_gets_stack_value :
    stop_capturing 0 true = (0, [Event.streamOff 0]) ∧
    stop_capturing 3 false = (-1, [Event.streamOff 3]) ∧
    V4L2_BUF_TYPE_VIDEO_CAPTURE = 1 ∧
    main_run envHappy = some (0, trHappy) ∧
    Event.streamOff 0 ∈ trHappy ∧
    trHappy.countP
      (fun e => decide (e = Event.streamOff V4L2_BUF_TYPE_VIDEO_CAPTURE)) = 0 := by
  decide

theorem stallInputs_succ (n : Nat) :
    stallInputs (n + 1) = SelIn.ready (DqRes.err EAGAIN) :: stallInputs n := by
  simp [stallInputs, List.replicate_succ]

theorem stallTrace_succ (n : Nat) :
    stallTrace (n + 1) =
      Event.selectCall :: Event.dqbufErr EAGAIN :: stallTrace n := by
  simp [stallTrace, List.replicate_succ]

/-- The inner loop on `stallInputs n` performs `n + 1` waits and then, upon
the non-EAGAIN dequeue failure, breaks and returns 0 — whatever `n` is. -/
theorem stall_loop_eq (n : Nat) : ∀ frames errno : Nat,
    inner_loop frames errno (stallInputs n) = some (0, frames, 5, stallTrace n) := by
  induction n with
  | zero =>
      intro frames errno
      simp [stallInputs, stallTrace, inner_loop, read_frame, EAGAIN]
  | succ n ih =>
      intro frames errno
      rw [stallInputs_succ, stallTrace_succ]
      simp [inner_loop, read_frame, ih]

/-- Claim C5 (amended): the source's outer bound constant is 70, but the
loop body returns during its first outer iteration, so the bound is never
exhausted and no `StabilizationExhausted` outcome exists in the code; the
number of readiness waits in one run is not bounded by 70 (it is `n + 1`
here for every `n`); and the loop can return 0 (success) without having
persisted a frame, e.g. when a non-EAGAIN dequeue failure breaks the inner
loop. -/
theorem c5_bound_never_taken (n frames errno : Nat) :
    main_loop frames errno (stallInputs n) = some (0, frames, 5, stallTrace n) ∧
    (stallTrace n).countP isSelect = n + 1 ∧
    (stallTrace n).countP isFopen = 0 ∧
    mainLoopBound = 70 := by
  refine ⟨by rw [main_loop_eq_inner]; exact stall_loop_eq n frames errno, ?_, ?_, rfl⟩
  · induction n with
    | zero => decide
    | succ n ih => rw [stallTrace_succ]; simp [List.countP_cons, isSelect, ih]
  · induction n with
    | zero => decide
    | succ n ih => rw [stallTrace_succ]; simp [List.countP_cons, isFopen, ih]

set_option maxRecDepth 4000 in
/-- Claim C5 counterexample: with 75 would-block wakeups and then a failing
dequeue, the loop performs 76 readiness waits — beyond the claimed bound of
70 — and then returns 0 (success) with no frame persisted and no
`StabilizationExhausted` error. -/
theorem c5_counterexample :
    main_loop 0 0 (stallInputs 75) = some (0, 0, 5, stallTrace 75) ∧
    (stallTrace 75).countP isSelect = 76 ∧
    mainLoopBound < 76 ∧
    (stallTrace 75).countP isFopen = 0 := by
  refine ⟨by rw [main_loop_eq_inner]; exact stall_loop_eq 75 0 0,
    by decide, by decide, by decide⟩

/-- Claim C6: the frame counter (`frames_received`, initialized to 0 at
`capture.c:42`) is unchanged by a failed dequeue, advances by exactly one per
successful dequeue, triggers `process_image` with the buffer's `bytesused`
and ends the loop (return 1) exactly when it reaches
`STORE_AFTER_X_FRAMES` = 5, re-enqueues the buffer and keeps the loop going
on every earlier successful dequeue, and in any full run that persists
(emits an fopen) the number of successful dequeues is exactly 5. -/
theorem c6_frame_counter :
    (∀ frames errno e, (read_frame frames errno (DqRes.err e)).2.1 = frames) ∧
    (∀ frames errno b qb pe,
        (read_frame frames errno (DqRes.frame b qb pe)).2.1 = frames + 1) ∧
    (∀ frames errno b qb pe, frames + 1 = STORE_AFTER_X_FRAMES →
        read_frame frames errno (DqRes.frame b qb pe) =
          (1, STORE_AFTER_X_FRAMES, errno,
            Event.dqbufOk b :: (process_image b pe).2)) ∧
    (∀ frames errno b pe, frames + 1 ≠ STORE_AFTER_X_FRAMES →
        read_frame frames errno (DqRes.frame b QbufRes.ok pe) =
          (0, frames + 1, errno, [Event.dqbufOk b, Event.requeue])) ∧
    (∀ (frames errno b : Nat) (pe : PersistEnv) (rest : List SelIn),
        frames + 1 ≠ STORE_AFTER_X_FRAMES →
        inner_loop frames errno
            (SelIn.ready (DqRes.frame b QbufRes.ok pe) :: rest) =
          (inner_loop (frames + 1) errno rest).map
            (fun p => (p.1, p.2.1, p.2.2.1,
              Event.selectCall :: Event.dqbufOk b :: Event.requeue :: p.2.2.2))) ∧
    (∀ (env : RunEnv) (code : Int) (tr : List Event),
        main_run env = some (code, tr) → 1 ≤ tr.countP isFopen →
        tr.countP isDqOk = STORE_AFTER_X_FRAMES) := by
  refine ⟨?_, ?_, ?_, ?_, ?_, ?_⟩
  · intro frames errno e
    by_cases h : e = EAGAIN <;> simp [read_frame, h]
  · intro frames errno b qb pe
    by_cases h : frames + 1 = STORE_AFTER_X_FRAMES
    · simp [read_frame, h]
    · cases qb <;> simp [read_frame, h]
  · intro frames errno b qb pe h
    simp [read_frame, h]
  · intro frames errno b pe h
    simp [read_frame, h]
  · intro frames errno b pe rest h
    rcases hres : inner_loop (frames + 1) errno rest with _ | ⟨r1, f1, er1, evs1⟩ <;>
      simp [inner_loop, read_frame, h, hres]
  · intro env code tr h hfo
    rcases main_run_file_counts env code tr h with ⟨z1, z2, z3⟩ |
      ⟨r, f, er, t5, heq, e1, e2, e3⟩
    · rw [z1] at hfo; omega
    · obtain ⟨-, hcnt, hfop, -⟩ := inner_loop_inv _ _ _ _ _ _ _ heq
      rw [e1] at hfo
      have h5 := hfop hfo
      rw [e2]
      omega

theorem c6_frame_counter_witness :
    (read_frame 0 0 (DqRes.err EAGAIN)).2.1 = 0 ∧
    (read_frame 3 0 (DqRes.frame 1000 QbufRes.ok ⟨true, 1, true⟩)).2.1 = 4 ∧
    read_frame 4 0 (DqRes.frame 1000 QbufRes.ok ⟨true, 1, true⟩) =
      (1, STORE_AFTER_X_FRAMES, 0,
        Event.dqbufOk 1000 :: (process_image 1000 ⟨true, 1, true⟩).2) ∧
    read_frame 2 0 (DqRes.frame 1000 QbufRes.ok ⟨true, 1, true⟩) =
      (0, 3, 0, [Event.dqbufOk 1000, Event.requeue]) ∧
    trHappy.countP isDqOk = STORE_AFTER_X_FRAMES :=
  ⟨c6_frame_counter.1 0 0 EAGAIN,
   c6_frame_counter.2.1 3 0 1000 QbufRes.ok ⟨true, 1, true⟩,
   c6_frame_counter.2.2.1 4 0 1000 QbufRes.ok ⟨true, 1, true⟩ rfl,
   c6_frame_counter.2.2.2.1 2 0 1000 ⟨true, 1, true⟩ (by decide),
   c6_frame_counter.2.2.2.2.2 envHappy 0 trHappy (by decide) (by decide)⟩

/-- Claim C10: in any run whose trace has fewer than five successful
dequeues — in particular any run failing at open, capability check, format,
buffer request, mapping, enqueue, stream-on, a readiness wait or a dequeue —
the output file is never opened and never written: the only `fopen`/`fwrite`
of the program live inside `process_image`, which runs only when the frame
counter reaches the stabilize target. -/
theorem c10_no_persist_before_fifth (env : RunEnv) (code : Int) (tr : List Event)
    (h : main_run env = some (code, tr))
    (hlt : tr.countP isDqOk < STORE_AFTER_X_FRAMES) :
    tr.countP isFopen = 0 ∧ tr.countP isFwrite = 0 := by
  rcases main_run_file_counts env code tr h with ⟨z1, z2, z3⟩ |
    ⟨r, f, er, t5, heq, e1, e2, e3⟩
  · exact ⟨z1, z3⟩
  · obtain ⟨-, hcnt, hfop, hwle⟩ := inner_loop_inv _ _ _ _ _ _ _ heq
    have hz : t5.countP isFopen = 0 := by
      rcases Nat.eq_zero_or_pos (t5.countP isFopen) with hz | hpos
      · exact hz
      · exfalso
        have h5 := hfop hpos
        rw [e2] at hlt
        omega
    constructor
    · rw [e1, hz]
    · rw [e3]; omega

theorem c10_no_persist_before_fifth_witness :
    trSelFail.countP isFopen = 0 ∧ trSelFail.countP isFwrite = 0 :=
  c10_no_persist_before_fifth envSelFail (-1) trSelFail (by decide) (by decide)

/-- Claim C3 (amended): only readiness-wait (`select`) failures with errno
other than EINTR are propagated (the loop returns that errno, failing the
run); a dequeue failure with errno other than EAGAIN and a re-enqueue
failure make `read_frame` return the errno, but `main_loop` treats any
nonzero `read_frame` result as loop completion (`break` then `return 0`,
`capture.c:213-217`), so those errors are swallowed and the loop reports
success. -/
theorem c3_error_propagation (frames errno e b qe : Nat) (rest : List SelIn)
    (pe : PersistEnv) :
    (e ≠ EINTR → inner_loop frames errno (SelIn.err e :: rest) =
      some ((e : Int), frames, e, [Event.selectCall])) ∧
    (e ≠ EAGAIN → e ≠ 0 →
      inner_loop frames errno (SelIn.ready (DqRes.err e) :: rest) =
        some (0, frames, e, [Event.selectCall, Event.dqbufErr e])) ∧
    (frames + 1 ≠ STORE_AFTER_X_FRAMES → qe ≠ 0 →
      inner_loop frames errno
          (SelIn.ready (DqRes.frame b (QbufRes.err qe) pe) :: rest) =
        some (0, frames + 1, qe,
          [Event.selectCall, Event.dqbufOk b, Event.requeue])) := by
  refine ⟨?_, ?_, ?_⟩
  · intro h; simp [inner_loop, h]
  · intro h hz
    have hzi : ((e : Nat) : Int) ≠ 0 := by exact_mod_cast hz
    simp [inner_loop, read_frame, h, hzi]
  · intro h hz
    have hzi : ((qe : Nat) : Int) ≠ 0 := by exact_mod_cast hz
    simp [inner_loop, read_frame, h, hzi]

theorem c3_error_propagation_witness :
    inner_loop 0 0 [SelIn.err 5] = some ((5 : Int), 0, 5, [Event.selectCall]) ∧
    inner_loop 0 7 [SelIn.ready (DqRes.err 5)] =
      some (0, 0, 5, [Event.selectCall, Event.dqbufErr 5]) ∧
    inner_loop 2 7 [SelIn.ready (DqRes.frame 9 (QbufRes.err 13) ⟨true, 1, true⟩)] =
      some (0, 3, 13, [Event.selectCall, Event.dqbufOk 9, Event.requeue]) :=
  ⟨(c3_error_propagation 0 0 5 9 13 [] ⟨true, 1, true⟩).1 (by decide),
   (c3_error_propagation 0 7 5 9 13 [] ⟨true, 1, true⟩).2.1 (by decide) (by decide),
   (c3_error_propagation 2 7 5 9 13 [] ⟨true, 1, true⟩).2.2 (by decide) (by decide)⟩

/-- Claim C3 counterexample: a run whose dequeue fails with errno 5 (EIO,
not EAGAIN) exits with code 0 — the process reports success, no error
reaches the top level, and nothing was persisted. -/
theorem c3_counterexample :
    main_run envDqFail = some (0, trDqFail) ∧
    Event.dqbufErr 5 ∈ trDqFail ∧
    trDqFail.countP isFopen = 0 := by decide

theorem open_device_ok {env : RunEnv} (h : env.openR = R.ok) :
    open_device env = (0, [Event.openDev]) := by
  simp [open_device, h]

theorem init_device_ok {env : RunEnv} (h2 : env.querycapR = R.ok)
    (h3 : env.capVideoCapture = true) (h4 : env.capStreaming = true)
    (h5 : env.sfmtR = R.ok) :
    init_device env = (0, [Event.queryCap, Event.setFmt]) := by
  simp [init_device, h2, h3, h4, h5]

theorem init_mmap_ok {env : RunEnv} (h6 : env.reqbufsR = R.ok)
    (h7 : env.querybufR = R.ok) (h8 : env.mmapR = R.ok) :
    init_mmap env = (0, [Event.reqBufs, Event.queryBuf, Event.mmapCall]) := by
  simp [init_mmap, h6, h7, h8]

theorem start_capturing_ok {env : RunEnv} (h9 : env.qbufR = R.ok)
    (h10 : env.streamonR = R.ok) :
    start_capturing env = (0, [Event.qbufInit, Event.streamOn]) := by
  simp [start_capturing, h9, h10]

/-- Claim C1 (amended): once stream-on has succeeded, every terminating run
performs unmap before close; on paths where `main_loop` returns 0 — frame
persisted, or a swallowed error or stale-errno timeout read as success —
stream-off is performed, before unmap, before close; but on every exit path
where `main_loop` returns nonzero (e.g. a select failure, or a timeout with
errno set), `main` runs only `uninit_mmap` and `close_device`
(`capture.c:273-277`): stream-off is skipped entirely. -/
theorem c1_teardown_order (env : RunEnv) (code : Int) (tr : List Event)
    (hs : streamOnSucceeded env) (h : main_run env = some (code, tr))
    (r : Int) (f er : Nat) (t5 : List Event)
    (heq : main_loop 0 0 env.loopIns = some (r, f, er, t5)) :
    (r = 0 → ∃ pre, tr = pre ++ [Event.streamOff env.stackType,
        Event.munmapCall, Event.closeCall] ∧ pre.countP isStreamOff = 0 ∧
        pre.countP isMunmap = 0 ∧ pre.countP isClose = 0) ∧
    (r ≠ 0 → tr.countP isStreamOff = 0 ∧
      ∃ pre, tr = pre ++ [Event.munmapCall, Event.closeCall] ∧
        pre.countP isMunmap = 0 ∧ pre.countP isClose = 0) := by
  obtain ⟨h1, h2, h3, h4, h5, h6, h7, h8, h9, h10⟩ := hs
  rw [main_loop_eq_inner] at heq
  have z1 : t5.countP isStreamOff = 0 := loop_countP_zero isStreamOff_loop heq
  have z2 : t5.countP isMunmap = 0 := loop_countP_zero isMunmap_loop heq
  have z3 : t5.countP isClose = 0 := loop_countP_zero isClose_loop heq
  simp only [main_run] at h
  rw [open_device_ok h1, init_device_ok h2 h3 h4 h5, init_mmap_ok h6 h7 h8,
    start_capturing_ok h9 h10] at h
  rw [if_neg (by simp), if_neg (by simp), if_neg (by simp), if_neg (by simp)] at h
  rw [main_loop_eq_inner] at h
  rw [heq] at h
  dsimp only at h
  constructor
  · intro hr0
    rw [hr0] at h
    rw [if_neg (by simp)] at h
    split at h
    · simp only [Option.some.injEq, Prod.mk.injEq] at h
      obtain ⟨-, htr⟩ := h
      obtain ⟨pre, hp, hso, hm, hc⟩ := so_munmap_close_tail htr.symm
      refine ⟨pre, hp, ?_, ?_, ?_⟩
      · rw [hso]
        simp [List.countP_append, List.countP_cons, isStreamOff, z1]
      · rw [hm]
        simp [List.countP_append, List.countP_cons, isMunmap, z2]
      · rw [hc]
        simp [List.countP_append, List.countP_cons, isClose, z3]
    · split at h
      · simp only [Option.some.injEq, Prod.mk.injEq] at h
        obtain ⟨-, htr⟩ := h
        obtain ⟨pre, hp, hso, hm, hc⟩ := so_munmap_close_tail htr.symm
        refine ⟨pre, hp, ?_, ?_, ?_⟩
        · rw [hso]
          simp [List.countP_append, List.countP_cons, isStreamOff, z1]
        · rw [hm]
          simp [List.countP_append, List.countP_cons, isMunmap, z2]
        · rw [hc]
          simp [List.countP_append, List.countP_cons, isClose, z3]
      · split at h
        · simp only [Option.some.injEq, Prod.mk.injEq] at h
          obtain ⟨-, htr⟩ := h
          obtain ⟨pre, hp, hso, hm, hc⟩ := so_munmap_close_tail htr.symm
          refine ⟨pre, hp, ?_, ?_, ?_⟩
          · rw [hso]
            simp [List.countP_append, List.countP_cons, isStreamOff, z1]
          · rw [hm]
            simp [List.countP_append, List.countP_cons, isMunmap, z2]
          · rw [hc]
            simp [List.countP_append, List.countP_cons, isClose, z3]
        · simp only [Option.some.injEq, Prod.mk.injEq] at h
          obtain ⟨-, htr⟩ := h
          obtain ⟨pre, hp, hso, hm, hc⟩ := so_munmap_close_tail htr.symm
          refine ⟨pre, hp, ?_, ?_, ?_⟩
          · rw [hso]
            simp [List.countP_append, List.countP_cons, isStreamOff, z1]
          · rw [hm]
            simp [List.countP_append, List.countP_cons, isMunmap, z2]
          · rw [hc]
            simp [List.countP_append, List.countP_cons, isClose, z3]
  · intro hrne
    rw [if_pos hrne] at h
    simp only [Option.some.injEq, Prod.mk.injEq] at h
    obtain ⟨-, htr⟩ := h
    constructor
    · rw [← htr]
      simp [List.countP_append, List.countP_cons, isStreamOff, z1,
        uninit_mmap_trace, close_device_trace]
    · obtain ⟨pre, hp, hm, hc⟩ := munmap_close_tail htr.symm
      refine ⟨pre, hp, ?_, ?_⟩
      · rw [hm]
        simp [List.countP_append, List.countP_cons, isMunmap, z2]
      · rw [hc]
        simp [List.countP_append, List.countP_cons, isClose, z3]

theorem c1_teardown_order_witness :
    trSelFail.countP isStreamOff = 0 ∧
    ∃ pre, trSelFail = pre ++ [Event.munmapCall, Event.closeCall] ∧
      pre.countP isMunmap = 0 ∧ pre.countP isClose = 0 :=
  (c1_teardown_order envSelFail (-1) trSelFail (by decide) (by decide)
      5 0 5 [Event.selectCall] (by decide)).2 (by decide)

/-- Claim C1 counterexample: a run in which stream-on succeeded and a
readiness wait then fails (select error, errno 5) exits through
`uninit_mmap` and `close_device` with no STREAMOFF ioctl at all — stream-off
is not performed before unmap on this exit path. -/
theorem c1_counterexample :
    main_run envSelFail = some (-1, trSelFail) ∧
    streamOnSucceeded envSelFail ∧
    Event.streamOn ∈ trSelFail ∧
    Event.munmapCall ∈ trSelFail ∧
    Event.closeCall ∈ trSelFail ∧
    trSelFail.countP isStreamOff = 0 := by decide

/-- Claim C7: after a successful open, every terminating run performs the
close call exactly once, as the final event of the trace; after a successful
mmap (all phases through `mmap` returning ok), every terminating run ends
with exactly one munmap immediately followed by that close.  No hypothesis
constrains `munmapOk` or `closeOk`: a munmap failure does not prevent the
close (`capture.c:285-289`). -/
theorem c7_resource_discipline (env : RunEnv) (code : Int) (tr : List Event)
    (h : main_run env = some (code, tr)) (hopen : env.openR = R.ok) :
    (∃ pre, tr = pre ++ [Event.closeCall] ∧ pre.countP isClose = 0) ∧
    (env.querycapR = R.ok → env.capVideoCapture = true → env.capStreaming = true →
     env.sfmtR = R.ok → env.reqbufsR = R.ok → env.querybufR = R.ok → env.mmapR = R.ok →
     ∃ pre, tr = pre ++ [Event.munmapCall, Event.closeCall] ∧
       pre.countP isMunmap = 0 ∧ pre.countP isClose = 0) := by
  obtain ⟨cc1, cc2, cc3, cc4⟩ := phase_counts env isClose rfl rfl rfl rfl rfl rfl rfl rfl
  obtain ⟨cm1, cm2, cm3, cm4⟩ := phase_counts env isMunmap rfl rfl rfl rfl rfl rfl rfl rfl
  have cuc : ∀ ok, (uninit_mmap ok).2.countP isClose = 0 := by
    intro ok; rw [uninit_mmap_trace]; simp [isClose]
  have cum : ∀ ok, (uninit_mmap ok).2.countP isMunmap = 1 := by
    intro ok; rw [uninit_mmap_trace]; simp [isMunmap]
  have csc : ∀ t ok, (stop_capturing t ok).2.countP isClose = 0 := by
    intro t ok; rw [stop_capturing_trace]; simp [isClose]
  have csm : ∀ t ok, (stop_capturing t ok).2.countP isMunmap = 0 := by
    intro t ok; rw [stop_capturing_trace]; simp [isMunmap]
  constructor
  · simp only [main_run, open_device, hopen] at h
    rw [if_neg (by simp)] at h
    split at h
    · simp only [Option.some.injEq, Prod.mk.injEq] at h
      obtain ⟨-, htr⟩ := h
      obtain ⟨pre, hp, hc⟩ := close_tail htr.symm
      exact ⟨pre, hp, by rw [hc]; simp [List.countP_append, List.countP_cons, cc2, isClose]⟩
    · split at h
      · simp only [Option.some.injEq, Prod.mk.injEq] at h
        obtain ⟨-, htr⟩ := h
        obtain ⟨pre, hp, hc⟩ := close_tail htr.symm
        exact ⟨pre, hp, by
          rw [hc]; simp [List.countP_append, List.countP_cons, cc2, cc3, isClose]⟩
      · split at h
        · simp only [Option.some.injEq, Prod.mk.injEq] at h
          obtain ⟨-, htr⟩ := h
          obtain ⟨pre, hp, hc⟩ := close_tail htr.symm
          exact ⟨pre, hp, by
            rw [hc]
            simp [List.countP_append, List.countP_cons, cc2, cc3, cc4, cuc, isClose]⟩
        · split at h
          · exact absurd h (by simp)
          · rename_i r f er t5 heq
            rw [main_loop_eq_inner] at heq
            have hz : t5.countP isClose = 0 := loop_countP_zero isClose_loop heq
            split at h
            · simp only [Option.some.injEq, Prod.mk.injEq] at h
              obtain ⟨-, htr⟩ := h
              obtain ⟨pre, hp, hc⟩ := close_tail htr.symm
              exact ⟨pre, hp, by
                rw [hc]
                simp [List.countP_append, List.countP_cons, cc2, cc3, cc4, cuc, hz, isClose]⟩
            · split at h
              · simp only [Option.some.injEq, Prod.mk.injEq] at h
                obtain ⟨-, htr⟩ := h
                obtain ⟨pre, hp, hc⟩ := close_tail htr.symm
                exact ⟨pre, hp, by
                  rw [hc]
                  simp [List.countP_append, List.countP_cons, cc2, cc3, cc4, cuc, csc, hz,
                    isClose]⟩
              · split at h
                · simp only [Option.some.injEq, Prod.mk.injEq] at h
                  obtain ⟨-, htr⟩ := h
                  obtain ⟨pre, hp, hc⟩ := close_tail htr.symm
                  exact ⟨pre, hp, by
                    rw [hc]
                    simp [List.countP_append, List.countP_cons, cc2, cc3, cc4, cuc, csc, hz,
                      isClose]⟩
                · split at h
                  · simp only [Option.some.injEq, Prod.mk.injEq] at h
                    obtain ⟨-, htr⟩ := h
                    obtain ⟨pre, hp, hc⟩ := close_tail htr.symm
                    exact ⟨pre, hp, by
                      rw [hc]
                      simp [List.countP_append, List.countP_cons, cc2, cc3, cc4, cuc, csc, hz,
                        isClose]⟩
                  · simp only [Option.some.injEq, Prod.mk.injEq] at h
                    obtain ⟨-, htr⟩ := h
                    obtain ⟨pre, hp, hc⟩ := close_tail htr.symm
                    exact ⟨pre, hp, by
                      rw [hc]
                      simp [List.countP_append, List.countP_cons, cc2, cc3, cc4, cuc, csc, hz,
                        isClose]⟩
  · intro hqc hcv hcs hsf hrb hqb hmm
    simp only [main_run, open_device, init_device, init_mmap, hopen, hqc, hcv, hcs, hsf,
      hrb, hqb, hmm] at h
    rw [if_neg (by simp), if_neg (by simp), if_neg (by simp)] at h
    split at h
    · simp only [Option.some.injEq, Prod.mk.injEq] at h
      obtain ⟨-, htr⟩ := h
      obtain ⟨pre, hp, hm1, hc1⟩ := munmap_close_tail htr.symm
      exact ⟨pre, hp, by
        rw [hm1]; simp [List.countP_append, List.countP_cons, cm4, isMunmap], by
        rw [hc1]; simp [List.countP_append, List.countP_cons, cc4, isClose]⟩
    · split at h
      · exact absurd h (by simp)
      · rename_i r f er t5 heq
        rw [main_loop_eq_inner] at heq
        have hz : t5.countP isClose = 0 := loop_countP_zero isClose_loop heq
        have hzm : t5.countP isMunmap = 0 := loop_countP_zero isMunmap_loop heq
        split at h
        · simp only [Option.some.injEq, Prod.mk.injEq] at h
          obtain ⟨-, htr⟩ := h
          obtain ⟨pre, hp, hm1, hc1⟩ := munmap_close_tail htr.symm
          exact ⟨pre, hp, by
            rw [hm1]; simp [List.countP_append, List.countP_cons, cm4, hzm, isMunmap], by
            rw [hc1]; simp [List.countP_append, List.countP_cons, cc4, hz, isClose]⟩
        · split at h
          · simp only [Option.some.injEq, Prod.mk.injEq] at h
            obtain ⟨-, htr⟩ := h
            obtain ⟨pre, hp, hm1, hc1⟩ := munmap_close_tail htr.symm
            exact ⟨pre, hp, by
              rw [hm1]
              simp [List.countP_append, List.countP_cons, cm4, csm, hzm, isMunmap], by
              rw [hc1]
              simp [List.countP_append, List.countP_cons, cc4, csc, hz, isClose]⟩
          · split at h
            · simp only [Option.some.injEq, Prod.mk.injEq] at h
              obtain ⟨-, htr⟩ := h
              obtain ⟨pre, hp, hm1, hc1⟩ := munmap_close_tail htr.symm
              exact ⟨pre, hp, by
                rw [hm1]
                simp [List.countP_append, List.countP_cons, cm4, csm, hzm, isMunmap], by
                rw [hc1]
                simp [List.countP_append, List.countP_cons, cc4, csc, hz, isClose]⟩
            · split at h
              · simp only [Option.some.injEq, Prod.mk.injEq] at h
                obtain ⟨-, htr⟩ := h
                obtain ⟨pre, hp, hm1, hc1⟩ := munmap_close_tail htr.symm
                exact ⟨pre, hp, by
                  rw [hm1]
                  simp [List.countP_append, List.countP_cons, cm4, csm, hzm, isMunmap], by
                  rw [hc1]
                  simp [List.countP_append, List.countP_cons, cc4, csc, hz, isClose]⟩
              · simp only [Option.some.injEq, Prod.mk.injEq] at h
                obtain ⟨-, htr⟩ := h
                obtain ⟨pre, hp, hm1, hc1⟩ := munmap_close_tail htr.symm
                exact ⟨pre, hp, by
                  rw [hm1]
                  simp [List.countP_append, List.countP_cons, cm4, csm, hzm, isMunmap], by
                  rw [hc1]
                  simp [List.countP_append, List.countP_cons, cc4, csc, hz, isClose]⟩

theorem c7_resource_discipline_witness :
    ∃ pre, trHappy = pre ++ [Event.munmapCall, Event.closeCall] ∧
      pre.countP isMunmap = 0 ∧ pre.countP isClose = 0 :=
  (c7_resource_discipline envMunmapFail (-1) trHappy (by decide) (by decide)).2
    (by decide) (by decide) (by decide) (by decide) (by decide) (by decide)
    (by decide)

end Capture
